import Mathlib

/-! Verification development for `iam_intercomparison_figure.py`.

The single function `iam_intercomparison_figure(hist_df, AR6_df, study_df,
scenarios, region_list, box_cats)` builds a grid of scenario panels with a
historical dashed line, per-model lines, a min-max funnel from 2020, fixed
position boxplots of the ensemble dataset's category-grouped values, and two
legends.  We embed the function shallowly: dataframes become lists of typed
rows, numeric `value`/`year` columns become `Int` (only order and equality of
these columns matter to the function), matplotlib artists become explicit
plan structures, and Python exceptions become an `Except` error channel with
a location tag.  Error sites are sequenced exactly in the order the Python
statements would raise.
-/

namespace IAM

/-- Row of the historical dataframe (`hist_df`):
columns model, scenario, region, variable, year, value. -/
structure HistRow where
  model : String
  scenario : String
  region : String
  var : String
  year : Int
  value : Int
deriving DecidableEq, Repr

/-- Row of the ensemble dataframe (`AR6_df`):
columns model, scenario, region, Category, variable, year, value. -/
structure AR6Row where
  model : String
  scenario : String
  region : String
  category : String
  var : String
  year : Int
  value : Int
deriving DecidableEq, Repr

/-- Row of the study dataframe (`study_df`):
columns model, scenario, region, variable, year, value, study, unit. -/
structure StudyRow where
  model : String
  scenario : String
  region : String
  var : String
  year : Int
  value : Int
  study : String
  unit : String
deriving DecidableEq, Repr

/-- Python exceptions raised by the function, tagged with the raise site. -/
inductive PyErr where
  | indexError (loc : String)
  | keyError (loc : String)
  | zeroDivisionError
deriving DecidableEq, Repr

/-- Matplotlib's default `axes.prop_cycle` color list
(`plt.rcParams['axes.prop_cycle'].by_key()['color']`, line 45). -/
def palette : List String :=
  ["#1f77b4", "#ff7f0e", "#2ca02c", "#d62728", "#9467bd",
   "#8c564b", "#e377c2", "#7f7f7f", "#bcbd22", "#17becf"]

/-- Pandas `Series.unique` with an accumulator of already seen values:
distinct values in order of first occurrence. -/
def pdUniqueAux {α : Type} [DecidableEq α] : List α → List α → List α
  | [], _ => []
  | x :: xs, seen =>
    if x ∈ seen then pdUniqueAux xs seen else x :: pdUniqueAux xs (x :: seen)

/-- Pandas `Series.unique`: distinct values in order of first occurrence. -/
def pdUnique {α : Type} [DecidableEq α] (l : List α) : List α :=
  pdUniqueAux l []

/-- Lexicographic comparison of character lists by code point, the order
Python's `sorted` uses on strings. -/
def strLeB : List Char → List Char → Bool
  | [], _ => true
  | _ :: _, [] => false
  | a :: as, b :: bs => if a = b then strLeB as bs else decide (a.toNat < b.toNat)

/-- Python's string order: lexicographic by code point. -/
def strLe (s t : String) : Bool := strLeB s.data t.data

/-- The string order as a relation, for the sorting lemmas. -/
def strLeR (s t : String) : Prop := strLe s t = true

instance : DecidableRel strLeR := fun s t => by
  unfold strLeR; infer_instance

/-- Line 44: `models = sorted(study_df['model'].unique())`. -/
def sortedModels (study : List StudyRow) : List String :=
  List.insertionSort strLeR (pdUnique (study.map (fun r => r.model)))

/-- Line 46: the `model_colors` dict as a function; for a model at sorted
index `i` this is `palette[i % len(palette)]`. -/
def modelColorsOf (models : List String) (m : String) : String :=
  palette.getD (models.indexOf m % palette.length) ""

/-- Line 47: the three fixed box colors, in the order they are zipped onto
`cats[0]`, `cats[1]`, `cats[2]`. -/
def ramp : List String := ["#ffcccc", "#ff6666", "#cc0000"]

/-- Line 47: the `box_colors` dict built positionally from `cats`; a lookup
by key, where a later duplicate key overrides an earlier one. -/
def boxColor (cats : List String) (c : String) : Option String :=
  ((cats.zip ramp).reverse.find? (fun p => p.1 == c)).map (fun p => p.2)

/-- Line 38: `data2050 = [bx[bx['Category'] == c]['value'].values for c in cats]`
with `bx = AR6_df` (note: the ensemble dataframe is NOT filtered by year). -/
def data2050 (ar6 : List AR6Row) (cats : List String) : List (List Int) :=
  cats.map (fun c => (ar6.filter (fun r => r.category == c)).map (fun r => r.value))

/-- Line 50: `total_panels = n + (0 if is_even else 1)`. -/
def panelCount (n : Nat) : Nat := n + (if n % 2 == 0 then 0 else 1)

/-- Upward search for the least `j ≥ k` with `p ≤ j * j`, with enough fuel. -/
def ceilSqrtFrom (p : Nat) : Nat → Nat → Nat
  | k, 0 => k
  | k, fuel + 1 => if p ≤ k * k then k else ceilSqrtFrom p (k + 1) fuel

/-- Line 51: `int(math.ceil(math.sqrt(p)))` over the naturals: the least
`k` with `p ≤ k * k`. -/
def intCeilSqrt (p : Nat) : Nat := ceilSqrtFrom p 0 p

/-- Values of the rows of a given year, in row order: the group a pandas
`groupby('year')` forms for the key `y`. -/
def valsAt (rows : List StudyRow) (y : Int) : List Int :=
  (rows.filter (fun r => r.year == y)).map (fun r => r.value)

/-- Lines 74-76: pandas `post.groupby('year')['value'].agg(min, max)`:
group keys are the distinct years sorted ascending, each mapped to the
minimum and maximum of the `value` column of its group. -/
def funnelPoints (rows : List StudyRow) : List (Int × Int × Int) :=
  (List.insertionSort (· ≤ ·) (pdUnique (rows.map (fun r => r.year)))).map
    (fun y => (y, ((valsAt rows y).min?).getD 0, ((valsAt rows y).max?).getD 0))

/-- Line 69: `df_s = study_df[study_df['scenario'] == scen]` followed by
line 74: `post = df_s[df_s['year'] >= 2020]`. -/
def postOf (study : List StudyRow) (scen : String) : List StudyRow :=
  (study.filter (fun r => r.scenario == scen)).filter (fun r => decide (2020 ≤ r.year))

/-- Line 70: pandas `df_s.groupby('model')`: keys sorted ascending, each
group keeping the original row order. -/
def groupByModel (rows : List StudyRow) : List (String × List StudyRow) :=
  (List.insertionSort strLeR (pdUnique (rows.map (fun r => r.model)))).map
    (fun m => (m, rows.filter (fun r => r.model == m)))

/-- Line 83: the boxplot width `1.3`, as the rational `13/10`. -/
def boxplotWidth : Rat := 13 / 10

/-- Line 116: the shrunk right margin `0.75`, as the rational `3/4`. -/
def shrunkRightMargin : Rat := 3 / 4

/-- Line 29: `study_df['study'].iat[0].replace("_", " ")`; the pattern is the
single character underscore, so the replacement is characterwise. -/
def replaceUnderscores (s : String) : String :=
  ⟨s.data.map (fun c => if c == '_' then ' ' else c)⟩

/-- Line 31: `re.sub(r'^EU.*', 'EU', region_list[0])`: a string starting
with `EU` collapses to `EU` (the pattern anchors at the start and `.*`
swallows the rest of the line), anything else is unchanged. -/
def regionLabelOf (r : String) : String :=
  if "EU".data.isPrefixOf r.data then "EU" else r

/-- One scenario panel: the artists drawn by lines 62-97 of the source. -/
structure Panel where
  histXs : List Int
  histYs : List Int
  histStyle : String
  modelLines : List (String × String × List (Int × Int))
  funnel : Option (List (Int × Int × Int))
  boxSamples : List (List Int)
  boxPositions : List Int
  boxWidth : Rat
  showOutliers : Bool
  boxFacecolors : List String
  title : String
deriving DecidableEq, Repr

/-- Lines 62-97: the plot content of the panel for one scenario. -/
def mkPanel (hist : List HistRow) (study : List StudyRow)
    (mcolors : String → String) (d : List (List Int)) (cats : List String)
    (scen : String) : Panel :=
  let dfs := study.filter (fun r => r.scenario == scen)
  let post := dfs.filter (fun r => decide (2020 ≤ r.year))
  { histXs := hist.map (fun r => r.year)
    histYs := hist.map (fun r => r.value)
    histStyle := "--k"
    modelLines := (groupByModel dfs).map
      (fun p => (p.1, mcolors p.1, p.2.map (fun r => (r.year, r.value))))
    funnel := if post.isEmpty then none else some (funnelPoints post)
    boxSamples := d
    boxPositions := [2052, 2054, 2056]
    boxWidth := boxplotWidth
    showOutliers := false
    boxFacecolors := cats.map (fun c => (boxColor cats c).getD "")
    title := scen }

/-- One legend handle: its label text, color and line style. -/
structure LegendEntry where
  label : String
  color : String
  dashed : Bool
deriving DecidableEq, Repr

/-- Line 107: `study_df.loc[study_df['model'] == m, 'region'].iat[0]`, the
region of the first study row of a model (always present for the models the
function looks up, which come from the study dataframe itself). -/
def regionOfModel (study : List StudyRow) (m : String) : String :=
  ((study.find? (fun r => r.model == m)).map (fun r => r.region)).getD ""

/-- Lines 106-107: the model legend handles — the dashed black historical
entry followed by one colored entry per model. -/
def mkModelLegend (histRegion : String) (study : List StudyRow)
    (models : List String) (mcolors : String → String) : List LegendEntry :=
  ⟨"Historical (" ++ histRegion ++ ")", "black", true⟩ ::
    models.map (fun m =>
      ⟨m ++ " (" ++ regionOfModel study m ++ ")", mcolors m, false⟩)

/-- Line 108: the category legend handles, one patch per category. -/
def mkBoxLegend (cats : List String) : List LegendEntry :=
  cats.map (fun c => ⟨"AR6 SSP2-" ++ c, (boxColor cats c).getD "", false⟩)

/-- Where the two legends of the figure are placed (lines 111-122). -/
inductive LegendLoc where
  | figureRight
  | inCell (idx : Nat)
deriving DecidableEq, Repr

/-- The rendered figure, as the declarative plan the source builds. -/
structure Figure where
  nrows : Nat
  ncols : Nat
  panels : List Panel
  hiddenCells : List Nat
  legendLoc : LegendLoc
  legendCellAxisOff : Bool
  rightMargin : Option Rat
  modelLegend : List LegendEntry
  boxLegend : List LegendEntry
  modelLegendPos : String
  boxLegendPos : String
  suptitle : String
  ylabel : String
  displayed : Bool
  savedFiles : List String
deriving DecidableEq, Repr

/-- Python value returned by a call; the source has no `return`, so a
successful call returns `None`. -/
inductive PyValue where
  | pyNone
  | pyFigure (f : Figure)
deriving DecidableEq, Repr

/-- Outcome of a successful call: the returned Python value, the figure that
was rendered, and the three input dataframes as the call leaves them. -/
structure CallResult where
  ret : PyValue
  fig : Figure
  histAfter : List HistRow
  ar6After : List AR6Row
  studyAfter : List StudyRow
deriving DecidableEq, Repr

/-- Lines 29-32 and 53-131: everything the function computes once the raise
sites have been passed; `s0`, `r0` and `h0` are the first rows/elements that
`iat[0]` / `region_list[0]` read. -/
def buildResult (hist : List HistRow) (ar6 : List AR6Row) (study : List StudyRow)
    (scens : List String) (cats : List String)
    (s0 : StudyRow) (r0 : String) (h0 : HistRow) : CallResult :=
  let studyName := replaceUnderscores s0.study
  let regionLabel := regionLabelOf r0
  let n := scens.length
  let even := n % 2 == 0
  let p := panelCount n
  let ncols := intCeilSqrt p
  let nrows := (p + ncols - 1) / ncols
  let models := sortedModels study
  let mcolors := modelColorsOf models
  let d := data2050 ar6 cats
  let figure : Figure :=
    { nrows := nrows
      ncols := ncols
      panels := scens.map (mkPanel hist study mcolors d cats)
      hiddenCells := (List.range (nrows * ncols)).filter (fun j => decide (p ≤ j))
      legendLoc := if even then .figureRight else .inCell n
      legendCellAxisOff := !even
      rightMargin := if even then some shrunkRightMargin else none
      modelLegend := mkModelLegend h0.region study models mcolors
      boxLegend := mkBoxLegend cats
      modelLegendPos := if even then "center left (0.83, 0.6)" else "upper center"
      boxLegendPos := if even then "center left (0.83, 0.35)" else "lower center"
      suptitle := studyName ++ " – " ++ s0.var ++ " \nRegion: " ++ regionLabel
      ylabel := s0.unit
      displayed := true
      savedFiles := [] }
  { ret := .pyNone, fig := figure
    histAfter := hist, ar6After := ar6, studyAfter := study }

/-- The whole function `iam_intercomparison_figure`.  The error branches are
sequenced exactly as the Python statements raise them: line 29
(`study_df['study'].iat[0]` on an empty study dataframe), line 31
(`region_list[0]` on an empty region list), line 47 (`cats[2]` when fewer
than three categories are given), line 52 (division by a zero column count,
which happens exactly when the scenario list is empty), line 86
(`box_colors[cat]` for a category with no dict entry, reached on the first
panel since the scenario list is non-empty there), and line 105
(`hist_df['region'].iat[0]` on an empty historical dataframe). -/
def iamIntercomparisonFigure (hist : List HistRow) (ar6 : List AR6Row)
    (study : List StudyRow) (scens : List String)
    (regionList : List String) (cats : List String) : Except PyErr CallResult :=
  match study with
  | [] => .error (.indexError "study_metadata_iat0")
  | s0 :: _ =>
    match regionList with
    | [] => .error (.indexError "region_list_index0")
    | r0 :: _ =>
      if cats.length < 3 then .error (.indexError "box_cats_index2")
      else if intCeilSqrt (panelCount scens.length) = 0 then .error .zeroDivisionError
      else if ¬ (cats.all (fun c => (boxColor cats c).isSome)) then
        .error (.keyError "box_colors")
      else
        match hist with
        | [] => .error (.indexError "hist_region_iat0")
        | h0 :: _ => .ok (buildResult hist ar6 study scens cats s0 r0 h0)

/-- A panel with nothing drawn, used as the out-of-range default of list
indexing in the statements below. -/
def emptyPanel : Panel :=
  { histXs := [], histYs := [], histStyle := "", modelLines := [], funnel := none
    boxSamples := [], boxPositions := [], boxWidth := 0, showOutliers := false
    boxFacecolors := [], title := "" }

/-- A figure with nothing in it, used only inside `defaultCallResult`. -/
def emptyFigure : Figure :=
  { nrows := 0, ncols := 0, panels := [], hiddenCells := [], legendLoc := .figureRight
    legendCellAxisOff := false, rightMargin := none, modelLegend := [], boxLegend := []
    modelLegendPos := "", boxLegendPos := "", suptitle := "", ylabel := ""
    displayed := false, savedFiles := [] }

/-- Default result, used as the fallback of `okOr`. -/
def defaultCallResult : CallResult :=
  { ret := .pyNone, fig := emptyFigure, histAfter := [], ar6After := [], studyAfter := [] }

/-- Extracts the result of a successful call, with an inert fallback. -/
def okOr (x : Except PyErr CallResult) : CallResult :=
  match x with
  | .ok r => r
  | .error _ => defaultCallResult

/-- Modelled from the spec: what the spec says line 38 computes, namely the
ensemble dataset "filtered to a target year (2050) and grouped by category
into boxplot samples".  Compared against `data2050`, which the source builds
without any year filter. -/
def specBoxSamplesAt2050 (ar6 : List AR6Row) (cats : List String) : List (List Int) :=
  cats.map (fun c =>
    ((ar6.filter (fun r => r.year == 2050)).filter (fun r => r.category == c)).map
      (fun r => r.value))

/-- Modelled from the spec: "the distinct model names of the study dataset
are sorted", using any duplicate-removal whose output is the distinct names;
compared against `sortedModels`, which deduplicates pandas-style by first
occurrence before sorting. -/
def specSortedModels (study : List StudyRow) : List String :=
  List.insertionSort strLeR ((study.map (fun r => r.model)).dedup)

/-- Concrete historical dataset used by the witnesses. -/
def histEx : List HistRow := [⟨"hm", "hs", "EU28", "v", 2000, 1⟩]

/-- Concrete study dataset used by the witnesses; scenario `s1` only. -/
def studyEx : List StudyRow :=
  [⟨"m1", "s1", "EU28", "v", 2030, 5, "My_study", "EJ"⟩,
   ⟨"m2", "s1", "EU28", "v", 2030, 7, "My_study", "EJ"⟩]

/-- Concrete ensemble dataset used by the witnesses: its single row has
year 1999, far from 2050, and category `C1`. -/
def ar6Ex : List AR6Row := [⟨"am", "SSP2", "EU28", "C1", "v", 1999, 42⟩]

/-- The default region list of the source. -/
def regionsEx : List String := ["EU28", "EU27"]

/-- The default category list of the source. -/
def catsEx : List String := ["C1", "C2", "C3"]

/-! Helper lemmas about the embedded primitives. -/

theorem char_toNat_inj {a b : Char} (h : a.toNat = b.toNat) : a = b :=
  Char.eq_of_val_eq (UInt32.ext h)

theorem strLeB_total : ∀ as bs : List Char, strLeB as bs = true ∨ strLeB bs as = true := by
  intro as
  induction as with
  | nil => intro bs; left; rfl
  | cons a as ih =>
    intro bs
    cases bs with
    | nil => right; rfl
    | cons b bs =>
      by_cases hab : a = b
      · subst hab
        simpa [strLeB] using ih bs
      · have hba : ¬ b = a := fun h => hab h.symm
        rcases Nat.lt_trichotomy a.toNat b.toNat with hlt | heq | hgt
        · left; simp [strLeB, hab, hlt]
        · exact absurd (char_toNat_inj heq) hab
        · right; simp [strLeB, hba, hgt]

theorem strLeB_trans : ∀ as bs cs : List Char,
    strLeB as bs = true → strLeB bs cs = true → strLeB as cs = true := by
  intro as
  induction as with
  | nil => intro bs cs _ _; rfl
  | cons a as ih =>
    intro bs cs h1 h2
    cases bs with
    | nil => simp [strLeB] at h1
    | cons b bs =>
      cases cs with
      | nil => simp [strLeB] at h2
      | cons c cs =>
        by_cases hab : a = b
        · subst hab
          by_cases hac : a = c
          · subst hac
            simp only [strLeB, if_pos rfl] at h1 h2 ⊢
            exact ih bs cs h1 h2
          · simp only [strLeB, if_pos rfl] at h1
            simpa [strLeB, hac] using h2
        · by_cases hbc : b = c
          · subst hbc
            simpa [strLeB, hab] using h1
          · simp only [strLeB, if_neg hab, decide_eq_true_eq] at h1
            simp only [strLeB, if_neg hbc, decide_eq_true_eq] at h2
            have hlt : a.toNat < c.toNat := Nat.lt_trans h1 h2
            have hac : ¬ a = c := fun h => by
              subst h; exact Nat.lt_irrefl _ hlt
            simp [strLeB, hac, hlt]

theorem strLeB_antisymm : ∀ as bs : List Char,
    strLeB as bs = true → strLeB bs as = true → as = bs := by
  intro as
  induction as with
  | nil =>
    intro bs _ h2
    cases bs with
    | nil => rfl
    | cons b bs => simp [strLeB] at h2
  | cons a as ih =>
    intro bs h1 h2
    cases bs with
    | nil => simp [strLeB] at h1
    | cons b bs =>
      by_cases hab : a = b
      · subst hab
        simp only [strLeB, if_pos rfl] at h1 h2
        rw [ih bs h1 h2]
      · have hba : ¬ b = a := fun h => hab h.symm
        simp only [strLeB, if_neg hab, decide_eq_true_eq] at h1
        simp only [strLeB, if_neg hba, decide_eq_true_eq] at h2
        exact absurd (Nat.lt_trans h1 h2) (Nat.lt_irrefl _)

instance : IsTotal String strLeR :=
  ⟨fun s t => strLeB_total s.data t.data⟩

instance : IsTrans String strLeR :=
  ⟨fun s t u h1 h2 => strLeB_trans s.data t.data u.data h1 h2⟩

instance : IsAntisymm String strLeR :=
  ⟨fun s t h1 h2 => by
    cases s with
    | mk sd =>
      cases t with
      | mk td => exact congrArg String.mk (strLeB_antisymm sd td h1 h2)⟩

theorem mem_pdUniqueAux {α : Type} [DecidableEq α] :
    ∀ (l seen : List α) (a : α), a ∈ pdUniqueAux l seen ↔ a ∈ l ∧ a ∉ seen := by
  intro l
  induction l with
  | nil => intro seen a; simp [pdUniqueAux]
  | cons x xs ih =>
    intro seen a
    by_cases hx : x ∈ seen
    · rw [pdUniqueAux, if_pos hx, ih]
      simp only [List.mem_cons]
      constructor
      · exact fun h => ⟨Or.inr h.1, h.2⟩
      · rintro ⟨h1 | h1, h2⟩
        · exact absurd (h1 ▸ hx) h2
        · exact ⟨h1, h2⟩
    · rw [pdUniqueAux, if_neg hx]
      by_cases hax : a = x
      · subst hax
        simp [ih, hx]
      · simp [ih, hax, not_or]

theorem mem_pdUnique {α : Type} [DecidableEq α] (l : List α) (a : α) :
    a ∈ pdUnique l ↔ a ∈ l := by
  rw [pdUnique, mem_pdUniqueAux]
  simp

theorem nodup_pdUniqueAux {α : Type} [DecidableEq α] :
    ∀ (l seen : List α), (pdUniqueAux l seen).Nodup := by
  intro l
  induction l with
  | nil => intro seen; simp [pdUniqueAux]
  | cons x xs ih =>
    intro seen
    by_cases hx : x ∈ seen
    · rw [pdUniqueAux, if_pos hx]; exact ih seen
    · rw [pdUniqueAux, if_neg hx]
      refine List.Nodup.cons ?_ (ih (x :: seen))
      intro hmem
      exact ((mem_pdUniqueAux xs (x :: seen) x).mp hmem).2 (List.mem_cons_self _ _)

theorem nodup_pdUnique {α : Type} [DecidableEq α] (l : List α) :
    (pdUnique l).Nodup := nodup_pdUniqueAux l []

theorem ceilSqrtFrom_le (p : Nat) :
    ∀ fuel k, p ≤ (k + fuel) * (k + fuel) →
      p ≤ ceilSqrtFrom p k fuel * ceilSqrtFrom p k fuel := by
  intro fuel
  induction fuel with
  | zero => intro k h; simpa [ceilSqrtFrom] using h
  | succ n ih =>
    intro k h
    rw [ceilSqrtFrom]
    split
    · assumption
    · refine ih (k + 1) ?_
      rw [show k + 1 + n = k + (n + 1) from by omega]
      exact h

theorem ceilSqrtFrom_min (p : Nat) :
    ∀ fuel k j, p ≤ j * j → k ≤ j → ceilSqrtFrom p k fuel ≤ j := by
  intro fuel
  induction fuel with
  | zero => intro k j _ hkj; simpa [ceilSqrtFrom] using hkj
  | succ n ih =>
    intro k j hj hkj
    rw [ceilSqrtFrom]
    split
    · exact hkj
    · rename_i hk
      have hne : k ≠ j := fun h => hk (h ▸ hj)
      exact ih (k + 1) j hj (by omega)

theorem intCeilSqrt_le_sq (p : Nat) : p ≤ intCeilSqrt p * intCeilSqrt p := by
  rw [intCeilSqrt]
  refine ceilSqrtFrom_le p p 0 ?_
  cases p with
  | zero => simp
  | succ n =>
    calc n + 1 = (n + 1) * 1 := by omega
    _ ≤ (0 + (n + 1)) * (0 + (n + 1)) := by
        refine Nat.mul_le_mul (by omega) (by omega)

theorem intCeilSqrt_min (p j : Nat) (hj : p ≤ j * j) : intCeilSqrt p ≤ j :=
  ceilSqrtFrom_min p p 0 j hj (Nat.zero_le j)

theorem intCeilSqrt_eq_zero_iff (p : Nat) : intCeilSqrt p = 0 ↔ p = 0 := by
  constructor
  · intro h
    have := intCeilSqrt_le_sq p
    rw [h] at this
    omega
  · intro h; subst h; rfl

theorem ceilDiv_ge (p c : Nat) (hc : c ≠ 0) : p ≤ ((p + c - 1) / c) * c := by
  have h := Nat.div_add_mod (p + c - 1) c
  have hm : (p + c - 1) % c < c := Nat.mod_lt _ (Nat.pos_of_ne_zero hc)
  rw [Nat.mul_comm]
  omega

theorem ceilDiv_min (p c m : Nat) (hc : c ≠ 0) (h : p ≤ m * c) :
    (p + c - 1) / c ≤ m := by
  have hlt : p + c - 1 < (m + 1) * c := by
    have : m * c + c = (m + 1) * c := by ring
    omega
  have := (Nat.div_lt_iff_lt_mul (Nat.pos_of_ne_zero hc)).mpr hlt
  omega

instance : Std.Antisymm ((· : Int) ≤ ·) :=
  ⟨by intro a b h1 h2; exact Int.le_antisymm h1 h2⟩

theorem intList_min?_eq_some_iff {xs : List Int} {a : Int} :
    xs.min? = some a ↔ a ∈ xs ∧ ∀ b ∈ xs, a ≤ b :=
  List.min?_eq_some_iff (fun _ => Int.le_refl _) (fun _ _ => min_choice _ _)
    (fun _ _ _ => le_min_iff)

theorem intList_max?_eq_some_iff {xs : List Int} {a : Int} :
    xs.max? = some a ↔ a ∈ xs ∧ ∀ b ∈ xs, b ≤ a :=
  List.max?_eq_some_iff (fun _ => Int.le_refl _) (fun _ _ => max_choice _ _)
    (fun _ _ _ => max_le_iff)

theorem boxColor_isSome_of_mem {cats : List String} (hlen : cats.length = 3)
    {c : String} (hc : c ∈ cats) : (boxColor cats c).isSome = true := by
  rw [boxColor, Option.isSome_map']
  rw [List.find?_isSome]
  obtain ⟨i, hi, hgot⟩ := List.mem_iff_getElem.mp hc
  have hir : i < ramp.length := by rw [show ramp.length = 3 from rfl]; omega
  have hiz : i < (cats.zip ramp).length := by
    rw [List.length_zip]; omega
  refine ⟨(cats.zip ramp).get ⟨i, hiz⟩, ?_, ?_⟩
  · exact List.mem_reverse.mpr (List.get_mem _ _ _)
  · have hzz := @List.getElem_zip String String cats ramp i hiz
    simp only [List.get_eq_getElem, hzz]
    simp [hgot]

theorem all_boxColor_of_len3 {cats : List String} (hlen : cats.length = 3) :
    cats.all (fun c => (boxColor cats c).isSome) = true := by
  rw [List.all_eq_true]
  exact fun c hc => boxColor_isSome_of_mem hlen hc

theorem panelCount_pos {n : Nat} (hn : n ≠ 0) : panelCount n ≠ 0 := by
  rw [panelCount]
  split <;> omega

/-- Success conditions: with non-empty study, region-list, historical and
scenario inputs and exactly three categories, the call returns `.ok` with
the result built by `buildResult` from the heads the `iat[0]` reads see. -/
theorem iamFig_eq_ok {hist : List HistRow} {ar6 : List AR6Row}
    {study : List StudyRow} {scens : List String}
    {rl : List String} {cats : List String}
    (hstudy : study ≠ []) (hrl : rl ≠ []) (hhist : hist ≠ [])
    (hcats : cats.length = 3) (hscens : scens ≠ []) :
    ∃ s0 st r0 rt h0 ht, study = s0 :: st ∧ rl = r0 :: rt ∧ hist = h0 :: ht ∧
      iamIntercomparisonFigure hist ar6 study scens rl cats =
        .ok (buildResult hist ar6 study scens cats s0 r0 h0) := by
  rcases study with _ | ⟨s0, st⟩
  · exact absurd rfl hstudy
  rcases rl with _ | ⟨r0, rt⟩
  · exact absurd rfl hrl
  rcases hist with _ | ⟨h0, ht⟩
  · exact absurd rfl hhist
  refine ⟨s0, st, r0, rt, h0, ht, rfl, rfl, rfl, ?_⟩
  rw [iamIntercomparisonFigure]
  rw [if_neg (by omega)]
  rw [if_neg ?hz]
  case hz =>
    intro h
    exact panelCount_pos (fun h0 => hscens (List.length_eq_zero.mp h0))
      ((intCeilSqrt_eq_zero_iff _).mp h)
  rw [if_neg (by simp [all_boxColor_of_len3 hcats])]

/-- Shape of a successful call: all three head reads succeeded and the
result is the one `buildResult` assembles. -/
theorem iamFig_ok_shape {hist : List HistRow} {ar6 : List AR6Row}
    {study : List StudyRow} {scens : List String}
    {rl : List String} {cats : List String} {r : CallResult}
    (h : iamIntercomparisonFigure hist ar6 study scens rl cats = .ok r) :
    ∃ s0 st r0 rt h0 ht, study = s0 :: st ∧ rl = r0 :: rt ∧ hist = h0 :: ht ∧
      3 ≤ cats.length ∧ intCeilSqrt (panelCount scens.length) ≠ 0 ∧
      r = buildResult hist ar6 study scens cats s0 r0 h0 := by
  rcases study with _ | ⟨s0, st⟩
  · simp [iamIntercomparisonFigure] at h
  rcases rl with _ | ⟨r0, rt⟩
  · simp [iamIntercomparisonFigure] at h
  rcases hist with _ | ⟨h0, ht⟩
  · rw [iamIntercomparisonFigure] at h
    split_ifs at h
  rw [iamIntercomparisonFigure] at h
  split_ifs at h with h1 h2 h3
  refine ⟨s0, st, r0, rt, h0, ht, rfl, rfl, rfl, by omega, h2, ?_⟩
  cases h
  rfl

theorem buildResult_panels (hist : List HistRow) (ar6 : List AR6Row)
    (study : List StudyRow) (scens : List String) (cats : List String)
    (s0 : StudyRow) (r0 : String) (h0 : HistRow) :
    (buildResult hist ar6 study scens cats s0 r0 h0).fig.panels =
      scens.map (mkPanel hist study (modelColorsOf (sortedModels study))
        (data2050 ar6 cats) cats) := rfl

theorem boxFacecolors_positional {cats : List String} (hnd : cats.Nodup)
    (hlen : cats.length = 3) :
    cats.map (fun c => (boxColor cats c).getD "") = ramp := by
  rcases cats with _ | ⟨a, cats1⟩
  · simp at hlen
  rcases cats1 with _ | ⟨b, cats2⟩
  · simp at hlen
  rcases cats2 with _ | ⟨c, cats3⟩
  · simp at hlen
  have h3 : cats3 = [] := by
    refine List.length_eq_zero.mp ?_
    simp only [List.length_cons] at hlen
    omega
  subst h3
  have hab : a ≠ b := by rintro rfl; simp at hnd
  have hac : a ≠ c := by rintro rfl; simp at hnd
  have hbc : b ≠ c := by rintro rfl; simp at hnd
  have e1 : (c == a) = false := beq_eq_false_iff_ne.mpr (fun hh => hac hh.symm)
  have e2 : (b == a) = false := beq_eq_false_iff_ne.mpr (fun hh => hab hh.symm)
  have e3 : (c == b) = false := beq_eq_false_iff_ne.mpr (fun hh => hbc hh.symm)
  simp [boxColor, ramp, e1, e2, e3]

theorem getD_map_panels {scens : List String} {f : String → Panel} {i : Nat}
    (hi : i < scens.length) :
    (scens.map f).getD i emptyPanel = f (scens.getD i "") := by
  rw [List.getD_eq_getElem?_getD, List.getElem?_map, List.getElem?_eq_getElem hi]
  rw [List.getD_eq_getElem?_getD, List.getElem?_eq_getElem hi]
  rfl

theorem getD_map_samples {cats : List String} {f : String → List Int} {j : Nat}
    (hj : j < cats.length) :
    (cats.map f).getD j [] = f (cats.getD j "") := by
  rw [List.getD_eq_getElem?_getD, List.getElem?_map, List.getElem?_eq_getElem hj]
  rw [List.getD_eq_getElem?_getD, List.getElem?_eq_getElem hj]
  rfl

theorem mem_postOf {study : List StudyRow} {scen : String} {row : StudyRow} :
    row ∈ postOf study scen ↔ row ∈ study ∧ row.scenario = scen ∧ 2020 ≤ row.year := by
  rw [postOf]
  constructor
  · intro hm
    have h2 := List.mem_filter.mp hm
    have h1 := List.mem_filter.mp h2.1
    exact ⟨h1.1, by simpa using h1.2, by simpa using h2.2⟩
  · rintro ⟨h1, h2, h3⟩
    exact List.mem_filter.mpr ⟨List.mem_filter.mpr ⟨h1, by simpa using h2⟩,
      by simpa using h3⟩

theorem valsAt_ne_nil_of_mem {rows : List StudyRow} {row : StudyRow}
    (hr : row ∈ rows) : valsAt rows row.year ≠ [] := by
  rw [valsAt]
  intro hcon
  have hmem : row ∈ rows.filter (fun r => r.year == row.year) :=
    List.mem_filter.mpr ⟨hr, by simp⟩
  rw [List.map_eq_nil_iff.mp hcon] at hmem
  exact absurd hmem (List.not_mem_nil _)

theorem funnelPoints_mem_spec {rows : List StudyRow} {q : Int × Int × Int}
    (hq : q ∈ funnelPoints rows) :
    q.2.1 ∈ valsAt rows q.1 ∧ (∀ v ∈ valsAt rows q.1, q.2.1 ≤ v) ∧
    q.2.2 ∈ valsAt rows q.1 ∧ (∀ v ∈ valsAt rows q.1, v ≤ q.2.2) := by
  rw [funnelPoints] at hq
  obtain ⟨y, hy, hqe⟩ := List.mem_map.mp hq
  have hy2 : y ∈ rows.map (fun r => r.year) := by
    refine (mem_pdUnique _ _).mp ?_
    exact (List.perm_insertionSort (· ≤ ·) _).mem_iff.mp hy
  obtain ⟨row, hrow, hye⟩ := List.mem_map.mp hy2
  subst hye
  have hne := valsAt_ne_nil_of_mem hrow
  obtain ⟨mn, hmn⟩ : ∃ mn, (valsAt rows row.year).min? = some mn := by
    cases hmin : (valsAt rows row.year).min? with
    | none => exact absurd (List.min?_eq_none_iff.mp hmin) hne
    | some mn => exact ⟨mn, rfl⟩
  obtain ⟨mx, hmx⟩ : ∃ mx, (valsAt rows row.year).max? = some mx := by
    cases hmax : (valsAt rows row.year).max? with
    | none => exact absurd (List.max?_eq_none_iff.mp hmax) hne
    | some mx => exact ⟨mx, rfl⟩
  obtain ⟨hmem1, hall1⟩ := intList_min?_eq_some_iff.mp hmn
  obtain ⟨hmem2, hall2⟩ := intList_max?_eq_some_iff.mp hmx
  subst hqe
  simp only [hmn, hmx, Option.getD_some]
  exact ⟨hmem1, hall1, hmem2, hall2⟩

theorem funnelPoints_cover {rows : List StudyRow} {row : StudyRow}
    (hr : row ∈ rows) : ∃ q ∈ funnelPoints rows, q.1 = row.year := by
  rw [funnelPoints]
  have hy : row.year ∈ List.insertionSort (· ≤ ·)
      (pdUnique (rows.map (fun r => r.year))) := by
    refine (List.perm_insertionSort (· ≤ ·) _).mem_iff.mpr ?_
    exact (mem_pdUnique _ _).mpr (List.mem_map.mpr ⟨row, hr, rfl⟩)
  exact ⟨_, List.mem_map.mpr ⟨row.year, hy, rfl⟩, rfl⟩

theorem mkPanel_funnel_eq (hist : List HistRow) (study : List StudyRow)
    (mcolors : String → String) (d : List (List Int)) (cats : List String)
    (scen : String) :
    (mkPanel hist study mcolors d cats scen).funnel =
      if (postOf study scen).isEmpty then none
      else some (funnelPoints (postOf study scen)) := rfl

/-! The claims. -/

/-- C1 as stated is false on the code: line 38 never filters the ensemble
dataframe by year, so a row of year 1999 lands in the drawn samples.  At the
concrete call below the first panel draws `[[42], [], []]` although the only
ensemble row has year 1999, while the year-2050 filter the claim describes
would leave `[[], [], []]`. -/
theorem C1_counterexample :
    (iamIntercomparisonFigure histEx ar6Ex studyEx ["s1"] regionsEx catsEx).toOption.map
        (fun r => r.fig.panels.map (fun pan => pan.boxSamples)) = some [[[42], [], []]] ∧
    specBoxSamplesAt2050 ar6Ex catsEx = [[], [], []] ∧
    ([[42], [], []] : List (List Int)) ≠ [[], [], []] :=
  ⟨by decide, by decide, by decide⟩

/-- C1 (amended): for every successful call, the value arrays drawn as the
three boxplots of every scenario panel are the ensemble dataset's rows
grouped by category — one sample array per entry of box_cats, with NO
filtering to the year 2050 — drawn at fixed x positions 2052/2054/2056 with
width 1.3 and outliers suppressed. -/
theorem C1_box_samples_without_year_filter {hist : List HistRow}
    {ar6 : List AR6Row} {study : List StudyRow} {scens rl cats : List String}
    {r : CallResult}
    (h : iamIntercomparisonFigure hist ar6 study scens rl cats = .ok r) :
    ∀ pan ∈ r.fig.panels,
      pan.boxSamples = cats.map (fun c =>
        (ar6.filter (fun row => row.category == c)).map (fun row => row.value)) ∧
      pan.boxPositions = [2052, 2054, 2056] ∧
      pan.boxWidth = 13 / 10 ∧
      pan.showOutliers = false := by
  obtain ⟨s0, st, r0, rt, h0, ht, _, _, _, _, _, hr⟩ := iamFig_ok_shape h
  subst hr
  intro pan hpan
  rw [buildResult_panels] at hpan
  obtain ⟨scen, hscen, rfl⟩ := List.mem_map.mp hpan
  exact ⟨rfl, rfl, rfl, rfl⟩

/-- Witness for the amended C1 at a concrete successful call. -/
theorem C1_box_samples_without_year_filter_witness :
    iamIntercomparisonFigure histEx ar6Ex studyEx ["s1"] regionsEx catsEx =
      .ok (okOr (iamIntercomparisonFigure histEx ar6Ex studyEx ["s1"] regionsEx catsEx)) ∧
    (∀ pan ∈ (okOr (iamIntercomparisonFigure histEx ar6Ex studyEx ["s1"] regionsEx
        catsEx)).fig.panels,
      pan.boxSamples = catsEx.map (fun c =>
        (ar6Ex.filter (fun row => row.category == c)).map (fun row => row.value)) ∧
      pan.boxPositions = [2052, 2054, 2056] ∧
      pan.boxWidth = 13 / 10 ∧
      pan.showOutliers = false) :=
  ⟨by rfl,
   @C1_box_samples_without_year_filter histEx ar6Ex studyEx ["s1"] regionsEx catsEx
     (okOr (iamIntercomparisonFigure histEx ar6Ex studyEx ["s1"] regionsEx catsEx))
     (by rfl)⟩

/-- C2 as stated is false on the code: line 47 assigns colors to the
positions of `box_cats`, not to the category names.  Calling with the order
`["C3", "C2", "C1"]` gives category `C1` (third position) the dark red
`#cc0000` instead of the light red `#ffcccc` the claim requires, and `C3`
the light red. -/
theorem C2_counterexample :
    (iamIntercomparisonFigure histEx ar6Ex studyEx ["s1"] regionsEx
        ["C3", "C2", "C1"]).toOption.map
        (fun r => r.fig.panels.map (fun pan => pan.boxFacecolors)) =
      some [["#ffcccc", "#ff6666", "#cc0000"]] ∧
    boxColor ["C3", "C2", "C1"] "C1" = some "#cc0000" ∧
    boxColor ["C3", "C2", "C1"] "C3" = some "#ffcccc" ∧
    ("#cc0000" : String) ≠ "#ffcccc" :=
  ⟨by decide, by decide, by decide, by decide⟩

/-- C2 (amended): the category→color assignment is positional — for every
successful call whose three categories are distinct, the i-th entry of
box_cats receives the i-th color of the fixed ramp light red, medium red,
dark red, whatever its name; the mapping of the claim holds only for the
default ordering C1, C2, C3. -/
theorem C2_positional_box_colors {hist : List HistRow} {ar6 : List AR6Row}
    {study : List StudyRow} {scens rl cats : List String} {r : CallResult}
    (h : iamIntercomparisonFigure hist ar6 study scens rl cats = .ok r)
    (hnd : cats.Nodup) (hlen : cats.length = 3) :
    ∀ pan ∈ r.fig.panels,
      pan.boxFacecolors = ["#ffcccc", "#ff6666", "#cc0000"] := by
  obtain ⟨s0, st, r0, rt, h0, ht, _, _, _, _, _, hr⟩ := iamFig_ok_shape h
  subst hr
  intro pan hpan
  rw [buildResult_panels] at hpan
  obtain ⟨scen, hscen, rfl⟩ := List.mem_map.mp hpan
  have hface : (mkPanel hist study (modelColorsOf (sortedModels study))
      (data2050 ar6 cats) cats scen).boxFacecolors =
      cats.map (fun c => (boxColor cats c).getD "") := rfl
  rw [hface, boxFacecolors_positional hnd hlen]
  rfl

/-- Witness for the amended C2 at a concrete successful call with the
reversed category order. -/
theorem C2_positional_box_colors_witness :
    iamIntercomparisonFigure histEx ar6Ex studyEx ["s1"] regionsEx ["C3", "C2", "C1"] =
      .ok (okOr (iamIntercomparisonFigure histEx ar6Ex studyEx ["s1"] regionsEx
        ["C3", "C2", "C1"])) ∧
    (["C3", "C2", "C1"] : List String).Nodup ∧
    (["C3", "C2", "C1"] : List String).length = 3 ∧
    (∀ pan ∈ (okOr (iamIntercomparisonFigure histEx ar6Ex studyEx ["s1"] regionsEx
        ["C3", "C2", "C1"])).fig.panels,
      pan.boxFacecolors = ["#ffcccc", "#ff6666", "#cc0000"]) :=
  ⟨by rfl, by decide, by decide,
   @C2_positional_box_colors histEx ar6Ex studyEx ["s1"] regionsEx ["C3", "C2", "C1"]
     (okOr (iamIntercomparisonFigure histEx ar6Ex studyEx ["s1"] regionsEx
       ["C3", "C2", "C1"]))
     (by rfl) (by decide) (by decide)⟩

/-- C6: the model color assignment is deterministic (the embedding is a pure
function of the study dataset) and follows the reference definition — the
distinct model names sorted, the model at sorted index i receiving palette
color i modulo the palette length: the code's pandas-style first-occurrence
deduplication followed by sorting coincides with it. -/
theorem C6_model_colors_deterministic :
    ∀ study : List StudyRow,
      sortedModels study = specSortedModels study ∧
      ∀ m : String, modelColorsOf (sortedModels study) m =
        palette.getD ((specSortedModels study).indexOf m % palette.length) "" := by
  intro study
  have h1 : (pdUnique (study.map (fun rr => rr.model))).Nodup := nodup_pdUnique _
  have h2 : ((study.map (fun rr => rr.model)).dedup).Nodup := List.nodup_dedup _
  have hperm : List.Perm (pdUnique (study.map (fun rr => rr.model)))
      ((study.map (fun rr => rr.model)).dedup) := by
    refine (List.perm_ext_iff_of_nodup h1 h2).mpr ?_
    intro a
    rw [mem_pdUnique, List.mem_dedup]
  have hp : List.Perm (sortedModels study) (specSortedModels study) := by
    rw [sortedModels, specSortedModels]
    exact (List.perm_insertionSort strLeR _).trans
      (hperm.trans (List.perm_insertionSort strLeR _).symm)
  have hs1 : List.Sorted strLeR (sortedModels study) :=
    List.sorted_insertionSort strLeR _
  have hs2 : List.Sorted strLeR (specSortedModels study) :=
    List.sorted_insertionSort strLeR _
  have heq : sortedModels study = specSortedModels study :=
    List.eq_of_perm_of_sorted hp hs1 hs2
  refine ⟨heq, fun m => ?_⟩
  rw [modelColorsOf, heq]

/-- C7: for every call with an empty scenario list, the function fails with
an error rather than producing a figure — on the main path a
`ZeroDivisionError` from `nrows = ceil(0 / 0)`, and on degenerate inputs an
earlier `IndexError` from the metadata reads. -/
theorem C7_empty_scenarios_error :
    ∀ (hist : List HistRow) (ar6 : List AR6Row) (study : List StudyRow)
      (rl cats : List String),
      ∃ e, iamIntercomparisonFigure hist ar6 study [] rl cats = .error e := by
  intro hist ar6 study rl cats
  rcases study with _ | ⟨s0, st⟩
  · exact ⟨.indexError "study_metadata_iat0", rfl⟩
  rcases rl with _ | ⟨r0, rt⟩
  · exact ⟨.indexError "region_list_index0", rfl⟩
  rcases hist with _ | ⟨h0, ht⟩ <;>
    by_cases hc : cats.length < 3
  · exact ⟨.indexError "box_cats_index2", by rw [iamIntercomparisonFigure, if_pos hc]⟩
  · exact ⟨.zeroDivisionError, by rw [iamIntercomparisonFigure, if_neg hc, if_pos (by rfl)]⟩
  · exact ⟨.indexError "box_cats_index2", by rw [iamIntercomparisonFigure, if_pos hc]⟩
  · exact ⟨.zeroDivisionError, by rw [iamIntercomparisonFigure, if_neg hc, if_pos (by rfl)]⟩

/-- C9: a successful call returns `None`, leaves all three input dataframes
exactly as they were, displays the figure on screen, and writes no file. -/
theorem C9_no_side_effects {hist : List HistRow} {ar6 : List AR6Row}
    {study : List StudyRow} {scens rl cats : List String} {r : CallResult}
    (h : iamIntercomparisonFigure hist ar6 study scens rl cats = .ok r) :
    r.ret = .pyNone ∧ r.histAfter = hist ∧ r.ar6After = ar6 ∧
    r.studyAfter = study ∧ r.fig.displayed = true ∧ r.fig.savedFiles = [] := by
  obtain ⟨s0, st, r0, rt, h0, ht, _, _, _, _, _, hr⟩ := iamFig_ok_shape h
  subst hr
  exact ⟨rfl, rfl, rfl, rfl, rfl, rfl⟩

/-- Witness for C9 at a concrete successful call. -/
theorem C9_no_side_effects_witness :
    iamIntercomparisonFigure histEx ar6Ex studyEx ["s1"] regionsEx catsEx =
      .ok (okOr (iamIntercomparisonFigure histEx ar6Ex studyEx ["s1"] regionsEx catsEx)) ∧
    ((okOr (iamIntercomparisonFigure histEx ar6Ex studyEx ["s1"] regionsEx catsEx)).ret =
        .pyNone ∧
      (okOr (iamIntercomparisonFigure histEx ar6Ex studyEx ["s1"] regionsEx catsEx)).histAfter =
        histEx ∧
      (okOr (iamIntercomparisonFigure histEx ar6Ex studyEx ["s1"] regionsEx catsEx)).ar6After =
        ar6Ex ∧
      (okOr (iamIntercomparisonFigure histEx ar6Ex studyEx ["s1"] regionsEx catsEx)).studyAfter =
        studyEx ∧
      (okOr (iamIntercomparisonFigure histEx ar6Ex studyEx ["s1"] regionsEx catsEx)).fig.displayed =
        true ∧
      (okOr (iamIntercomparisonFigure histEx ar6Ex studyEx ["s1"] regionsEx catsEx)).fig.savedFiles =
        []) :=
  ⟨by rfl,
   @C9_no_side_effects histEx ar6Ex studyEx ["s1"] regionsEx catsEx
     (okOr (iamIntercomparisonFigure histEx ar6Ex studyEx ["s1"] regionsEx catsEx))
     (by rfl)⟩

/-- C10: an empty study dataframe makes the call raise an `IndexError` at
the metadata extraction of line 29, and an empty historical dataframe (with
the other inputs well-formed) makes it raise an `IndexError` at the legend
construction of line 105 — non-emptiness of both is an undocumented
precondition. -/
theorem C10_empty_dataset_index_error :
    (∀ (hist : List HistRow) (ar6 : List AR6Row) (scens rl cats : List String),
      iamIntercomparisonFigure hist ar6 [] scens rl cats =
        .error (.indexError "study_metadata_iat0")) ∧
    (∀ (ar6 : List AR6Row) (study : List StudyRow) (scens rl cats : List String),
      study ≠ [] → rl ≠ [] → cats.length = 3 → scens ≠ [] →
      iamIntercomparisonFigure [] ar6 study scens rl cats =
        .error (.indexError "hist_region_iat0")) := by
  constructor
  · intro hist ar6 scens rl cats
    rfl
  · intro ar6 study scens rl cats hstudy hrl hcats hscens
    rcases study with _ | ⟨s0, st⟩
    · exact absurd rfl hstudy
    rcases rl with _ | ⟨r0, rt⟩
    · exact absurd rfl hrl
    rw [iamIntercomparisonFigure]
    rw [if_neg (by omega)]
    rw [if_neg ?hz]
    case hz =>
      intro hzz
      exact panelCount_pos (fun h0 => hscens (List.length_eq_zero.mp h0))
        ((intCeilSqrt_eq_zero_iff _).mp hzz)
    rw [if_neg (by simp [all_boxColor_of_len3 hcats])]

/-- C4: for a non-empty scenario list, the panel count is the scenario count
plus one when odd, the column count is the ceiling of its square root (the
least `k` with `p ≤ k * k`), the row count is the ceiling of `p / ncols`
(the least `m` with `p ≤ m * ncols`), and four scenarios give a 2x2 grid. -/
theorem C4_grid_dimensions {hist : List HistRow} {ar6 : List AR6Row}
    {study : List StudyRow} {scens rl cats : List String} {r : CallResult}
    (h : iamIntercomparisonFigure hist ar6 study scens rl cats = .ok r) :
    (scens.length % 2 = 0 → panelCount scens.length = scens.length) ∧
    (scens.length % 2 = 1 → panelCount scens.length = scens.length + 1) ∧
    panelCount scens.length ≤ r.fig.ncols * r.fig.ncols ∧
    (∀ k, panelCount scens.length ≤ k * k → r.fig.ncols ≤ k) ∧
    panelCount scens.length ≤ r.fig.nrows * r.fig.ncols ∧
    (∀ m, panelCount scens.length ≤ m * r.fig.ncols → r.fig.nrows ≤ m) ∧
    (scens.length = 4 → r.fig.nrows = 2 ∧ r.fig.ncols = 2) := by
  obtain ⟨s0, st, r0, rt, h0, ht, _, _, _, _, hnz, hr⟩ := iamFig_ok_shape h
  subst hr
  have hnc : (buildResult hist ar6 study scens cats s0 r0 h0).fig.ncols =
      intCeilSqrt (panelCount scens.length) := rfl
  have hnr : (buildResult hist ar6 study scens cats s0 r0 h0).fig.nrows =
      (panelCount scens.length + intCeilSqrt (panelCount scens.length) - 1) /
        intCeilSqrt (panelCount scens.length) := rfl
  refine ⟨?_, ?_, ?_, ?_, ?_, ?_, ?_⟩
  · intro he; rw [panelCount, he]; rfl
  · intro he; rw [panelCount, he]; rfl
  · rw [hnc]; exact intCeilSqrt_le_sq _
  · intro k hk; rw [hnc]; exact intCeilSqrt_min _ k hk
  · rw [hnc, hnr]; exact ceilDiv_ge _ _ hnz
  · intro m hm
    rw [hnr]
    refine ceilDiv_min _ _ m hnz ?_
    rw [← hnc]
    exact hm
  · intro h4
    rw [hnc, hnr, h4]
    exact ⟨by decide, by decide⟩

/-- Witness for C4 at a concrete call with four scenarios. -/
theorem C4_grid_dimensions_witness :
    iamIntercomparisonFigure histEx ar6Ex studyEx ["s1", "s2", "s3", "s4"] regionsEx catsEx =
      .ok (okOr (iamIntercomparisonFigure histEx ar6Ex studyEx ["s1", "s2", "s3", "s4"]
        regionsEx catsEx)) ∧
    (((["s1", "s2", "s3", "s4"] : List String).length % 2 = 0 →
        panelCount (["s1", "s2", "s3", "s4"] : List String).length =
          (["s1", "s2", "s3", "s4"] : List String).length) ∧
      ((["s1", "s2", "s3", "s4"] : List String).length % 2 = 1 →
        panelCount (["s1", "s2", "s3", "s4"] : List String).length =
          (["s1", "s2", "s3", "s4"] : List String).length + 1) ∧
      panelCount (["s1", "s2", "s3", "s4"] : List String).length ≤
        (okOr (iamIntercomparisonFigure histEx ar6Ex studyEx ["s1", "s2", "s3", "s4"]
          regionsEx catsEx)).fig.ncols *
        (okOr (iamIntercomparisonFigure histEx ar6Ex studyEx ["s1", "s2", "s3", "s4"]
          regionsEx catsEx)).fig.ncols ∧
      (∀ k, panelCount (["s1", "s2", "s3", "s4"] : List String).length ≤ k * k →
        (okOr (iamIntercomparisonFigure histEx ar6Ex studyEx ["s1", "s2", "s3", "s4"]
          regionsEx catsEx)).fig.ncols ≤ k) ∧
      panelCount (["s1", "s2", "s3", "s4"] : List String).length ≤
        (okOr (iamIntercomparisonFigure histEx ar6Ex studyEx ["s1", "s2", "s3", "s4"]
          regionsEx catsEx)).fig.nrows *
        (okOr (iamIntercomparisonFigure histEx ar6Ex studyEx ["s1", "s2", "s3", "s4"]
          regionsEx catsEx)).fig.ncols ∧
      (∀ m, panelCount (["s1", "s2", "s3", "s4"] : List String).length ≤ m *
          (okOr (iamIntercomparisonFigure histEx ar6Ex studyEx ["s1", "s2", "s3", "s4"]
            regionsEx catsEx)).fig.ncols →
        (okOr (iamIntercomparisonFigure histEx ar6Ex studyEx ["s1", "s2", "s3", "s4"]
          regionsEx catsEx)).fig.nrows ≤ m) ∧
      ((["s1", "s2", "s3", "s4"] : List String).length = 4 →
        (okOr (iamIntercomparisonFigure histEx ar6Ex studyEx ["s1", "s2", "s3", "s4"]
          regionsEx catsEx)).fig.nrows = 2 ∧
        (okOr (iamIntercomparisonFigure histEx ar6Ex studyEx ["s1", "s2", "s3", "s4"]
          regionsEx catsEx)).fig.ncols = 2)) :=
  ⟨by rfl,
   @C4_grid_dimensions histEx ar6Ex studyEx ["s1", "s2", "s3", "s4"] regionsEx catsEx
     (okOr (iamIntercomparisonFigure histEx ar6Ex studyEx ["s1", "s2", "s3", "s4"]
       regionsEx catsEx))
     (by rfl)⟩

/-- C5: for an odd scenario count the cell after the last scenario panel is
axis-off, carries no data panel (there are exactly as many panels as
scenarios), and hosts the two legends stacked vertically (model legend upper
center, category legend lower center); for an even count both legends hang
on the figure to the right and the right margin is shrunk to 0.75; in both
cases exactly the grid cells from the panel count onward are hidden. -/
theorem C5_legend_layout {hist : List HistRow} {ar6 : List AR6Row}
    {study : List StudyRow} {scens rl cats : List String} {r : CallResult}
    (h : iamIntercomparisonFigure hist ar6 study scens rl cats = .ok r) :
    (scens.length % 2 = 1 →
      r.fig.legendLoc = .inCell scens.length ∧
      r.fig.legendCellAxisOff = true ∧
      r.fig.panels.length = scens.length ∧
      r.fig.modelLegendPos = "upper center" ∧
      r.fig.boxLegendPos = "lower center" ∧
      r.fig.rightMargin = none) ∧
    (scens.length % 2 = 0 →
      r.fig.legendLoc = .figureRight ∧
      r.fig.rightMargin = some shrunkRightMargin ∧
      r.fig.legendCellAxisOff = false) ∧
    r.fig.modelLegend ≠ [] ∧ r.fig.boxLegend ≠ [] ∧
    r.fig.hiddenCells = (List.range (r.fig.nrows * r.fig.ncols)).filter
      (fun j => decide (panelCount scens.length ≤ j)) := by
  obtain ⟨s0, st, r0, rt, h0, ht, _, _, _, hlen, _, hr⟩ := iamFig_ok_shape h
  subst hr
  refine ⟨?_, ?_, ?_, ?_, rfl⟩
  · intro ho
    have he : (scens.length % 2 == 0) = false := by
      rw [ho]; rfl
    refine ⟨?_, ?_, ?_, ?_, ?_, ?_⟩ <;>
      simp [buildResult, he]
  · intro ho
    have he : (scens.length % 2 == 0) = true := by
      rw [ho]; rfl
    refine ⟨?_, ?_, ?_⟩ <;>
      simp [buildResult, he]
  · simp [buildResult, mkModelLegend]
  · have hc : cats ≠ [] := by
      intro hc
      rw [hc] at hlen
      simp at hlen
    simp [buildResult, mkBoxLegend, hc]

/-- Witness for C5 at a concrete call with one scenario (odd count). -/
theorem C5_legend_layout_witness :
    iamIntercomparisonFigure histEx ar6Ex studyEx ["s1"] regionsEx catsEx =
      .ok (okOr (iamIntercomparisonFigure histEx ar6Ex studyEx ["s1"] regionsEx catsEx)) ∧
    (((["s1"] : List String).length % 2 = 1 →
        (okOr (iamIntercomparisonFigure histEx ar6Ex studyEx ["s1"] regionsEx
          catsEx)).fig.legendLoc = .inCell (["s1"] : List String).length ∧
        (okOr (iamIntercomparisonFigure histEx ar6Ex studyEx ["s1"] regionsEx
          catsEx)).fig.legendCellAxisOff = true ∧
        (okOr (iamIntercomparisonFigure histEx ar6Ex studyEx ["s1"] regionsEx
          catsEx)).fig.panels.length = (["s1"] : List String).length ∧
        (okOr (iamIntercomparisonFigure histEx ar6Ex studyEx ["s1"] regionsEx
          catsEx)).fig.modelLegendPos = "upper center" ∧
        (okOr (iamIntercomparisonFigure histEx ar6Ex studyEx ["s1"] regionsEx
          catsEx)).fig.boxLegendPos = "lower center" ∧
        (okOr (iamIntercomparisonFigure histEx ar6Ex studyEx ["s1"] regionsEx
          catsEx)).fig.rightMargin = none) ∧
      ((["s1"] : List String).length % 2 = 0 →
        (okOr (iamIntercomparisonFigure histEx ar6Ex studyEx ["s1"] regionsEx
          catsEx)).fig.legendLoc = .figureRight ∧
        (okOr (iamIntercomparisonFigure histEx ar6Ex studyEx ["s1"] regionsEx
          catsEx)).fig.rightMargin = some shrunkRightMargin ∧
        (okOr (iamIntercomparisonFigure histEx ar6Ex studyEx ["s1"] regionsEx
          catsEx)).fig.legendCellAxisOff = false) ∧
      (okOr (iamIntercomparisonFigure histEx ar6Ex studyEx ["s1"] regionsEx
        catsEx)).fig.modelLegend ≠ [] ∧
      (okOr (iamIntercomparisonFigure histEx ar6Ex studyEx ["s1"] regionsEx
        catsEx)).fig.boxLegend ≠ [] ∧
      (okOr (iamIntercomparisonFigure histEx ar6Ex studyEx ["s1"] regionsEx
        catsEx)).fig.hiddenCells =
        (List.range ((okOr (iamIntercomparisonFigure histEx ar6Ex studyEx ["s1"] regionsEx
          catsEx)).fig.nrows *
          (okOr (iamIntercomparisonFigure histEx ar6Ex studyEx ["s1"] regionsEx
            catsEx)).fig.ncols)).filter
          (fun j => decide (panelCount (["s1"] : List String).length ≤ j))) :=
  ⟨by rfl,
   @C5_legend_layout histEx ar6Ex studyEx ["s1"] regionsEx catsEx
     (okOr (iamIntercomparisonFigure histEx ar6Ex studyEx ["s1"] regionsEx catsEx))
     (by rfl)⟩

/-- C3: in every scenario panel the funnel band is drawn iff the study
dataset restricted to that scenario has at least one row with year ≥ 2020;
when drawn, each of its points carries, at its year, the minimum and maximum
of value over all rows of the restricted (scenario, year ≥ 2020) subset at
that year, and every year of that subset is represented. -/
theorem C3_funnel_band_min_max {hist : List HistRow} {ar6 : List AR6Row}
    {study : List StudyRow} {scens rl cats : List String} {r : CallResult}
    {i : Nat}
    (h : iamIntercomparisonFigure hist ar6 study scens rl cats = .ok r)
    (hi : i < scens.length) :
    ((r.fig.panels.getD i emptyPanel).funnel.isSome ↔
      ∃ row ∈ study, row.scenario = scens.getD i "" ∧ 2020 ≤ row.year) ∧
    (∀ pts, (r.fig.panels.getD i emptyPanel).funnel = some pts →
      (∀ q ∈ pts,
        q.2.1 ∈ valsAt (postOf study (scens.getD i "")) q.1 ∧
        (∀ v ∈ valsAt (postOf study (scens.getD i "")) q.1, q.2.1 ≤ v) ∧
        q.2.2 ∈ valsAt (postOf study (scens.getD i "")) q.1 ∧
        (∀ v ∈ valsAt (postOf study (scens.getD i "")) q.1, v ≤ q.2.2)) ∧
      (∀ row ∈ study, row.scenario = scens.getD i "" → 2020 ≤ row.year →
        ∃ q ∈ pts, q.1 = row.year)) := by
  obtain ⟨s0, st, r0, rt, h0, ht, _, _, _, _, _, hr⟩ := iamFig_ok_shape h
  subst hr
  rw [buildResult_panels, getD_map_panels hi, mkPanel_funnel_eq]
  constructor
  · by_cases hie : (postOf study (scens.getD i "")).isEmpty
    · rw [if_pos hie]
      simp only [Option.isSome_none, Bool.false_eq_true, false_iff]
      rintro ⟨row, hrow, hs, hy⟩
      have hmem : row ∈ postOf study (scens.getD i "") :=
        mem_postOf.mpr ⟨hrow, hs, hy⟩
      rw [List.isEmpty_iff.mp hie] at hmem
      exact absurd hmem (List.not_mem_nil _)
    · rw [if_neg hie]
      simp only [Option.isSome_some, true_iff]
      have hne : postOf study (scens.getD i "") ≠ [] := by
        intro hn
        rw [hn] at hie
        exact hie rfl
      obtain ⟨row, hrow⟩ := List.exists_mem_of_ne_nil _ hne
      obtain ⟨h1, h2, h3⟩ := mem_postOf.mp hrow
      exact ⟨row, h1, h2, h3⟩
  · intro pts hpts
    by_cases hie : (postOf study (scens.getD i "")).isEmpty
    · rw [if_pos hie] at hpts
      cases hpts
    · rw [if_neg hie] at hpts
      injection hpts with hinj
      subst hinj
      constructor
      · intro q hq
        exact funnelPoints_mem_spec hq
      · intro row hrow hs hy
        exact funnelPoints_cover (mem_postOf.mpr ⟨hrow, hs, hy⟩)

/-- Witness for C3 at a concrete successful call, keeping its first
conjunct: the panel of scenario `s1` has a funnel iff a study row of that
scenario has year ≥ 2020 (and here one does). -/
theorem C3_funnel_band_min_max_witness :
    iamIntercomparisonFigure histEx ar6Ex studyEx ["s1"] regionsEx catsEx =
      .ok (okOr (iamIntercomparisonFigure histEx ar6Ex studyEx ["s1"] regionsEx catsEx)) ∧
    0 < (["s1"] : List String).length ∧
    (((okOr (iamIntercomparisonFigure histEx ar6Ex studyEx ["s1"] regionsEx
        catsEx)).fig.panels.getD 0 emptyPanel).funnel.isSome ↔
      ∃ row ∈ studyEx, row.scenario = (["s1"] : List String).getD 0 "" ∧
        2020 ≤ row.year) :=
  ⟨by rfl, by decide,
   (@C3_funnel_band_min_max histEx ar6Ex studyEx ["s1"] regionsEx catsEx
     (okOr (iamIntercomparisonFigure histEx ar6Ex studyEx ["s1"] regionsEx catsEx))
     0 (by rfl) (by decide)).1⟩

/-- C8: with well-formed inputs the call succeeds, and empty filtered
subsets degrade to empty plot elements: a scenario with no study rows gets a
panel with no model lines and no funnel, and a category with no ensemble
rows gets an empty boxplot sample. -/
theorem C8_empty_subsets_graceful {hist : List HistRow} {ar6 : List AR6Row}
    {study : List StudyRow} {scens rl cats : List String}
    (hstudy : study ≠ []) (hrl : rl ≠ []) (hhist : hist ≠ [])
    (hcats : cats.length = 3) (hscens : scens ≠ []) :
    ∃ r, iamIntercomparisonFigure hist ar6 study scens rl cats = .ok r ∧
      ∀ i, i < scens.length →
        ((study.filter (fun row => row.scenario == scens.getD i "")) = [] →
          (r.fig.panels.getD i emptyPanel).modelLines = [] ∧
          (r.fig.panels.getD i emptyPanel).funnel = none) ∧
        (∀ j, j < cats.length →
          (ar6.filter (fun row => row.category == cats.getD j "")) = [] →
          (r.fig.panels.getD i emptyPanel).boxSamples.getD j [] = []) := by
  obtain ⟨s0, st, r0, rt, h0, ht, hseq, hreq, hheq, hok⟩ :=
    iamFig_eq_ok hstudy hrl hhist hcats hscens
  refine ⟨_, hok, ?_⟩
  intro i hi
  rw [buildResult_panels, getD_map_panels hi]
  constructor
  · intro hempty
    constructor
    · have hml : (mkPanel hist study (modelColorsOf (sortedModels study))
          (data2050 ar6 cats) cats (scens.getD i "")).modelLines =
          (groupByModel (study.filter
            (fun row => row.scenario == scens.getD i ""))).map
            (fun p => (p.1, modelColorsOf (sortedModels study) p.1,
              p.2.map (fun row => (row.year, row.value)))) := rfl
      rw [hml, hempty]
      rfl
    · rw [mkPanel_funnel_eq]
      have hpost : postOf study (scens.getD i "") = [] := by
        rw [postOf, hempty]
        rfl
      rw [hpost]
      rfl
  · intro j hj hempty
    have hbs : (mkPanel hist study (modelColorsOf (sortedModels study))
        (data2050 ar6 cats) cats (scens.getD i "")).boxSamples =
        cats.map (fun c =>
          (ar6.filter (fun row => row.category == c)).map (fun row => row.value)) := rfl
    rw [hbs, getD_map_samples hj, hempty]
    rfl

/-- Witness for C8 at a concrete call whose second scenario has no study
rows and whose second and third categories have no ensemble rows. -/
theorem C8_empty_subsets_graceful_witness :
    ∃ r, iamIntercomparisonFigure histEx ar6Ex studyEx ["s1", "s9"] regionsEx catsEx =
        .ok r ∧
      ∀ i, i < (["s1", "s9"] : List String).length →
        ((studyEx.filter (fun row =>
            row.scenario == (["s1", "s9"] : List String).getD i "")) = [] →
          (r.fig.panels.getD i emptyPanel).modelLines = [] ∧
          (r.fig.panels.getD i emptyPanel).funnel = none) ∧
        (∀ j, j < catsEx.length →
          (ar6Ex.filter (fun row => row.category == catsEx.getD j "")) = [] →
          (r.fig.panels.getD i emptyPanel).boxSamples.getD j [] = []) :=
  @C8_empty_subsets_graceful histEx ar6Ex studyEx ["s1", "s9"] regionsEx catsEx
    (by decide) (by decide) (by decide) (by decide) (by decide)

/-- Witness for C10 at concrete inputs: an empty study dataframe, and an
empty historical dataframe with the other inputs well-formed. -/
theorem C10_empty_dataset_index_error_witness :
    iamIntercomparisonFigure histEx ar6Ex [] ["s1"] regionsEx catsEx =
      .error (.indexError "study_metadata_iat0") ∧
    iamIntercomparisonFigure [] ar6Ex studyEx ["s1"] regionsEx catsEx =
      .error (.indexError "hist_region_iat0") :=
  ⟨C10_empty_dataset_index_error.1 histEx ar6Ex ["s1"] regionsEx catsEx,
   C10_empty_dataset_index_error.2 ar6Ex studyEx ["s1"] regionsEx catsEx
     (by decide) (by decide) (by decide) (by decide)⟩

end IAM
